import Mathlib

/-!
# Verification of the Alkosto search client (`src/algoliaClient.js`)

A shallow embedding of the enhanced Algolia client: the fallback ("demo")
dataset and its filter interpreter, the query cache, the retrying remote
gateway, the analytics recorder, and the orchestrating `searchProducts`
entry point.  JavaScript numbers that appear in the data and in parsed
filter atoms are exact decimals, embedded by the type `JsNum` below;
machine-level floating point is not modelled (all numbers involved are
short decimals whose order relations agree with their IEEE images).
Wall-clock instants are explicit `Nat` parameters (milliseconds), and the
remote index is an oracle mapping each attempt number to an outcome.
-/

namespace Alkosto

/-- Exact decimal number: the value `mant / 10 ^ exp`.  This embeds the
JavaScript number literals (`1.69`, `8.0`, …) and the results of
`parseFloat` on the digit strings captured by the filter regexes. -/
structure JsNum where
  mant : Nat
  exp : Nat
deriving DecidableEq

/-- Strict order on exact decimals, by cross multiplication. -/
def JsNum.lt (a b : JsNum) : Bool :=
  a.mant * 10 ^ b.exp < b.mant * 10 ^ a.exp

/-- The rational value of an exact decimal. -/
def JsNum.val (a : JsNum) : ℚ := (a.mant : ℚ) / (10 : ℚ) ^ a.exp

/-! ## Character-level helpers

The filter interpreter in the source works by JavaScript regular
expressions.  Each regex used there (`price_sale\s*<?\s*(\d+)` and its
weight/battery/brand analogues) is built from pairwise-disjoint character
classes, so greedy leftmost matching is deterministic; we embed it as a
scan over the character list that tries to match at each position from the
left. -/

/-- JavaScript `\s` on the ASCII range. -/
def jsSpace (c : Char) : Bool :=
  c = ' ' || c = '\t' || c = '\n' || c = '\r' || c = '\x0b' || c = '\x0c'

/-- JavaScript `\d`. -/
def isDigitChar (c : Char) : Bool := 48 ≤ c.toNat && c.toNat ≤ 57

/-- `parseInt` on a run of decimal digits. -/
def digitsVal (l : List Char) : Nat :=
  l.foldl (fun a c => a * 10 + (c.toNat - 48)) 0

/-- Strip an expected literal prefix, returning the remainder. -/
def stripPref : List Char → List Char → Option (List Char)
  | [], l => some l
  | _ :: _, [] => none
  | p :: ps, c :: cs => if p = c then stripPref ps cs else none

/-- Leftmost-match scan: try the position matcher `f` at every suffix,
left to right (the semantics of an unanchored JavaScript regex search). -/
def scan {α : Type} (f : List Char → Option α) : List Char → Option α
  | [] => none
  | c :: r =>
    match f (c :: r) with
    | some v => some v
    | none => scan f r

/-- JavaScript `String.prototype.includes`. -/
def containsSub (needle : List Char) : List Char → Bool
  | [] => needle.isEmpty
  | c :: r => (stripPref needle (c :: r)).isSome || containsSub needle r

/-- JavaScript `split(' ')` (single-space separator, empty pieces kept). -/
def splitSpaces : List Char → List (List Char)
  | [] => [[]]
  | c :: r =>
    if c = ' ' then [] :: splitSpaces r
    else
      match splitSpaces r with
      | t :: ts => (c :: t) :: ts
      | [] => [[c]]

/-- JavaScript `toLowerCase` on the ASCII range. -/
def lowerChars (l : List Char) : List Char := l.map Char.toLower

/-- JavaScript `toUpperCase` on the ASCII range. -/
def upperStr (s : String) : String := ⟨s.data.map Char.toUpper⟩

/-! ## Data model -/

/-- A catalog product, with the shape shared by the remote index and the
demo dataset (`DEMO_PRODUCTS` in the source). -/
structure Product where
  objectID : String
  name : String
  brand : String
  price_sale : Nat
  price_list : Nat
  ram : String
  storage : String
  processor : String
  processor_brand : String
  weight_kg : JsNum
  battery_hours : JsNum
  screen_size : String
  os : String
  in_stock : Bool
  stock : Nat
  key_features : List String
  url : String
  image_1 : String
deriving DecidableEq

/-- Search parameters (`params`); absent fields are `none`, matching
`undefined` in the source. -/
structure SearchParams where
  query : Option String
  filters : Option String
  hitsPerPage : Option Nat
  attributesToRetrieve : Option (List String)
deriving DecidableEq

/-- A search result.  `fallback`/`error` are absent (`none`) except on the
degraded path where the orchestrator sets them. -/
structure SearchResult where
  hits : List Product
  total : Nat
  page : Nat
  processingTimeMs : Nat
  source : String
  fallback : Option Bool
  error : Option String
deriving DecidableEq

/-- A query-cache entry (`{ data, timestamp }`). -/
structure CacheEntry where
  data : SearchResult
  timestamp : Nat
deriving DecidableEq

/-- One analytics log entry, as built by `logAnalytics`. -/
structure AnalyticsRecord where
  timestamp : Nat
  query : Option String
  filters : Option String
  hitsCount : Nat
  totalHits : Nat
  duration : Nat
  fromCache : Bool
  source : String
deriving DecidableEq

/-- The configuration constants object. -/
structure Config where
  MAX_RETRIES : Nat
  RETRY_DELAY_MS : Nat
  CACHE_TTL_MS : Nat
  DEMO_FALLBACK : Bool
  ANALYTICS_ENABLED : Bool

def CONFIG : Config :=
  { MAX_RETRIES := 3
    RETRY_DELAY_MS := 1000
    CACHE_TTL_MS := 5 * 60 * 1000
    DEMO_FALLBACK := true
    ANALYTICS_ENABLED := true }

/-- The fallback dataset (`DEMO_PRODUCTS`). -/
def DEMO_PRODUCTS : List Product :=
  [ { objectID := "demo-1"
      name := "HP Laptop 15\" Intel Core i5 16GB RAM 512GB SSD"
      brand := "HP"
      price_sale := 2499000
      price_list := 2899000
      ram := "16 GB"
      storage := "512 GB SSD"
      processor := "Intel Core i5-1235U"
      processor_brand := "Intel"
      weight_kg := ⟨169, 2⟩
      battery_hours := ⟨80, 1⟩
      screen_size := "15.6 Pulgadas"
      os := "Windows"
      in_stock := true
      stock := 45
      key_features :=
        [ "Procesador Intel Core i5 de 12va generación"
        , "16GB RAM para multitarea fluida"
        , "Disco SSD 512GB de alta velocidad"
        , "Pantalla Full HD de 15.6 pulgadas"
        , "Windows 11 Home preinstalado" ]
      url := "https://www.alkosto.com/laptop-hp-15-intel-core-i5"
      image_1 := "https://cdn.dam.alkosto.com/hp-laptop-15.jpg" }
  , { objectID := "demo-2"
      name := "ASUS VivoBook 14\" AMD Ryzen 5 8GB RAM 256GB SSD"
      brand := "ASUS"
      price_sale := 1999000
      price_list := 2299000
      ram := "8 GB"
      storage := "256 GB SSD"
      processor := "AMD Ryzen 5 5500U"
      processor_brand := "AMD"
      weight_kg := ⟨140, 2⟩
      battery_hours := ⟨100, 1⟩
      screen_size := "14 Pulgadas"
      os := "Windows"
      in_stock := true
      stock := 23
      key_features :=
        [ "Diseño ultradelgado y ligero (1.4kg)"
        , "Procesador AMD Ryzen 5 eficiente"
        , "Pantalla NanoEdge con bordes delgados"
        , "Teclado retroiluminado"
        , "Batería de larga duración" ]
      url := "https://www.alkosto.com/asus-vivobook-14-amd"
      image_1 := "https://cdn.dam.alkosto.com/asus-vivobook-14.jpg" }
  , { objectID := "demo-3"
      name := "Lenovo IdeaPad 3 15.6\" Intel Core i3 8GB RAM 256GB SSD"
      brand := "LENOVO"
      price_sale := 1799000
      price_list := 1999000
      ram := "8 GB"
      storage := "256 GB SSD"
      processor := "Intel Core i3-1115G4"
      processor_brand := "Intel"
      weight_kg := ⟨170, 2⟩
      battery_hours := ⟨75, 1⟩
      screen_size := "15.6 Pulgadas"
      os := "Windows"
      in_stock := true
      stock := 67
      key_features :=
        [ "Excelente relación precio-rendimiento"
        , "Pantalla HD antirreflejo"
        , "Dolby Audio para mejor sonido"
        , "Webcam con obturador de privacidad"
        , "Ideal para estudiantes y oficina" ]
      url := "https://www.alkosto.com/lenovo-ideapad-3-15"
      image_1 := "https://cdn.dam.alkosto.com/lenovo-ideapad-3.jpg" }
  , { objectID := "demo-4"
      name := "MacBook Air M2 13.6\" 8GB RAM 256GB SSD"
      brand := "APPLE"
      price_sale := 4999000
      price_list := 5499000
      ram := "8 GB"
      storage := "256 GB SSD"
      processor := "Apple M2"
      processor_brand := "Apple"
      weight_kg := ⟨124, 2⟩
      battery_hours := ⟨180, 1⟩
      screen_size := "13.6 Pulgadas"
      os := "MacOS"
      in_stock := true
      stock := 15
      key_features :=
        [ "Chip M2 ultraeficiente"
        , "Diseño ultrafino y ligero"
        , "Hasta 18 horas de batería"
        , "Pantalla Liquid Retina"
        , "Cámara FaceTime HD" ]
      url := "https://www.alkosto.com/macbook-air-m2"
      image_1 := "https://cdn.dam.alkosto.com/macbook-air-m2.jpg" }
  , { objectID := "demo-5"
      name := "Dell Inspiron 15 3000 Intel Core i5 12GB RAM 512GB SSD"
      brand := "DELL"
      price_sale := 2299000
      price_list := 2599000
      ram := "12 GB"
      storage := "512 GB SSD"
      processor := "Intel Core i5-1235U"
      processor_brand := "Intel"
      weight_kg := ⟨173, 2⟩
      battery_hours := ⟨85, 1⟩
      screen_size := "15.6 Pulgadas"
      os := "Windows"
      in_stock := true
      stock := 32
      key_features :=
        [ "Procesador Intel Core i5 de 12va gen"
        , "12GB RAM para mejor multitarea"
        , "SSD 512GB de alta velocidad"
        , "Pantalla FHD con micro-bordes"
        , "Teclado numérico incluido" ]
      url := "https://www.alkosto.com/dell-inspiron-15-3000"
      image_1 := "https://cdn.dam.alkosto.com/dell-inspiron-15.jpg" } ]

/-! ## Filter Interpreter (`searchDemoProducts` filter section) -/

/-- Match `field\s*op?\s*` at the current position and return the
remainder where the captured literal would start. -/
def afterField (field : List Char) (op : Char) (l : List Char) :
    Option (List Char) :=
  match stripPref field l with
  | none => none
  | some r1 =>
    let r2 := r1.dropWhile jsSpace
    let r3 :=
      match r2 with
      | c :: rest => if c = op then rest else r2
      | [] => r2
    some (r3.dropWhile jsSpace)

/-- Capture `(\d+)` and read it with `parseInt`. -/
def intCapture (l : List Char) : Option Nat :=
  let ds := l.takeWhile isDigitChar
  if ds.isEmpty then none else some (digitsVal ds)

/-- Capture `(\d+\.?\d*)` and read it with `parseFloat`. -/
def floatCapture (l : List Char) : Option JsNum :=
  let d1 := l.takeWhile isDigitChar
  if d1.isEmpty then none
  else
    match l.drop d1.length with
    | '.' :: r2 =>
      let d2 := r2.takeWhile isDigitChar
      some ⟨digitsVal d1 * 10 ^ d2.length + digitsVal d2, d2.length⟩
    | _ => some ⟨digitsVal d1, 0⟩

/-- `filters.match(/price_sale\s*<?\s*(\d+)/)`, value of capture 1. -/
def budgetOf (filters : String) : Option Nat :=
  scan (fun l => (afterField "price_sale".data '<' l).bind intCapture)
    filters.data

/-- `filters.match(/weight_kg\s*<?\s*(\d+\.?\d*)/)`, value of capture 1. -/
def weightOf (filters : String) : Option JsNum :=
  scan (fun l => (afterField "weight_kg".data '<' l).bind floatCapture)
    filters.data

/-- `filters.match(/battery_hours\s*>?\s*(\d+\.?\d*)/)`, value of capture 1. -/
def batteryOf (filters : String) : Option JsNum :=
  scan (fun l => (afterField "battery_hours".data '>' l).bind floatCapture)
    filters.data

/-- Position matcher for `brand:([^\s]+)`. -/
def brandAt (l : List Char) : Option String :=
  match stripPref "brand:".data l with
  | none => none
  | some r =>
    let tok := r.takeWhile (fun c => !(jsSpace c))
    if tok.isEmpty then none else some ⟨tok⟩

/-- `filters.match(/brand:([^\s]+)/)`, capture 1 (raw, not yet uppercased). -/
def brandOf (filters : String) : Option String := scan brandAt filters.data

/-- `filters.includes('in_stock:true')`. -/
def hasInStockTrue (filters : String) : Bool :=
  containsSub "in_stock:true".data filters.data

/-- Budget block: `results.filter(p => p.price_sale < budget)` when the
budget regex matched. -/
def budgetStage (filters : String) (l : List Product) : List Product :=
  match budgetOf filters with
  | some budget => l.filter (fun p => decide (p.price_sale < budget))
  | none => l

/-- Weight block: `results.filter(p => p.weight_kg < maxWeight)`. -/
def weightStage (filters : String) (l : List Product) : List Product :=
  match weightOf filters with
  | some maxWeight => l.filter (fun p => p.weight_kg.lt maxWeight)
  | none => l

/-- Battery block: `results.filter(p => p.battery_hours > minBattery)`. -/
def batteryStage (filters : String) (l : List Product) : List Product :=
  match batteryOf filters with
  | some minBattery => l.filter (fun p => minBattery.lt p.battery_hours)
  | none => l

/-- Stock block: `results.filter(p => p.in_stock)` when the filter text
includes `in_stock:true`. -/
def stockStage (filters : String) (l : List Product) : List Product :=
  if hasInStockTrue filters then l.filter (fun p => p.in_stock) else l

/-- Brand block: uppercase the capture, keep case-insensitive brand
matches. -/
def brandStage (filters : String) (l : List Product) : List Product :=
  match brandOf filters with
  | some captured =>
    let brand := upperStr captured
    l.filter (fun p => decide (upperStr p.brand = brand))
  | none => l

/-- The five regex-driven filter blocks of `searchDemoProducts`, applied
in source order (budget, weight, battery, stock, brand). -/
def applyFilters (filters : String) (l0 : List Product) : List Product :=
  brandStage filters
    (stockStage filters
      (batteryStage filters (weightStage filters (budgetStage filters l0))))

/-- The free-text stage: keep products whose lowercased name includes at
least one space-delimited token of the lowercased query. -/
def queryFilter (query : String) (l : List Product) : List Product :=
  let searchTerms := splitSpaces (lowerChars query.data)
  l.filter (fun p =>
    let nameLower := lowerChars p.name.data
    searchTerms.any (fun term => containsSub term nameLower))

/-- Stable insertion into a price-ascending list (earlier-original elements
stay in front of ties). -/
def insertByPrice (x : Product) : List Product → List Product
  | [] => [x]
  | y :: r =>
    if y.price_sale < x.price_sale then y :: insertByPrice x r
    else x :: y :: r

/-- Stable ascending sort by `price_sale`: the embedding of
`results.sort((a, b) => a.price_sale - b.price_sale)` (ECMAScript sort is
stable, and a stable sort's output is uniquely determined). -/
def sortByPrice : List Product → List Product
  | [] => []
  | x :: r => insertByPrice x (sortByPrice r)

/-- The list of matching demo products before sorting and truncation:
filter stages (skipped entirely when `filters` is falsy), then the text
stage (skipped when `query` is falsy or the sentinel `'laptop'`). -/
def demoFiltered (params : SearchParams) : List Product :=
  let query := params.query.getD ""
  let filters := params.filters.getD ""
  let results := DEMO_PRODUCTS
  let results := if filters ≠ "" then applyFilters filters results else results
  if query ≠ "" ∧ query ≠ "laptop" then queryFilter query results else results

/-- `searchDemoProducts`: the fallback search. -/
def searchDemoProducts (params : SearchParams) : SearchResult :=
  let hitsPerPage := params.hitsPerPage.getD 5
  let results := sortByPrice (demoFiltered params)
  { hits := results.take hitsPerPage
    total := results.length
    page := 0
    processingTimeMs := 10
    source := "demo"
    fallback := none
    error := none }

/-! ## Query Cache (`generateCacheKey`, `isCacheValid`, the `searchCache` map) -/

/-- Lower-case hex digit. -/
def hexDig (n : Nat) : Char :=
  if n < 10 then Char.ofNat (48 + n) else Char.ofNat (87 + n)

/-- `JSON.stringify` escaping of one string character. -/
def escChar (c : Char) : List Char :=
  if c = '"' then ['\\', '"']
  else if c = '\\' then ['\\', '\\']
  else if c = '\x08' then ['\\', 'b']
  else if c = '\x09' then ['\\', 't']
  else if c = '\x0a' then ['\\', 'n']
  else if c = '\x0c' then ['\\', 'f']
  else if c = '\x0d' then ['\\', 'r']
  else if c.toNat < 32 then
    ['\\', 'u', '0', '0', hexDig (c.toNat / 16), hexDig (c.toNat % 16)]
  else [c]

/-- `JSON.stringify` escaping of a whole string body. -/
def escList : List Char → List Char
  | [] => []
  | c :: r => escChar c ++ escList r

/-- A JSON string literal: quotes around the escaped body. -/
def jsonQuote (s : String) : List Char := '"' :: (escList s.data ++ ['"'])

/-- JavaScript `x || ''` for an optional string (both `undefined` and the
empty string map to the empty string, i.e. the identity on present
values). -/
def jsOrEmpty (o : Option String) : String := o.getD ""

/-- JavaScript `x || 5` for an optional number: `undefined` and the falsy
`0` both default to `5`. -/
def jsOrFive (o : Option Nat) : Nat :=
  match o with
  | none => 5
  | some n => if n = 0 then 5 else n

/-- The characters of
`JSON.stringify({query: q || '', filters: f || '', hitsPerPage: h || 5})`. -/
def keyChars (params : SearchParams) : List Char :=
  "\x7b\"query\":".data ++ jsonQuote (jsOrEmpty params.query) ++
    ",\"filters\":".data ++ jsonQuote (jsOrEmpty params.filters) ++
    ",\"hitsPerPage\":".data ++
    (Nat.repr (jsOrFive params.hitsPerPage)).data ++ ['\x7d']

/-- `generateCacheKey`. -/
def generateCacheKey (params : SearchParams) : String := ⟨keyChars params⟩

/-- Value of a lower-case hex digit. -/
def hexVal (c : Char) : Nat :=
  if c.toNat ≤ 57 then c.toNat - 48 else c.toNat - 87

/-- One step of decoding a `JSON.stringify`-escaped string body. -/
def dec1 : List Char → Option (Char × List Char)
  | [] => none
  | c :: rest =>
    if c = '\\' then
      match rest with
      | [] => none
      | d :: r2 =>
        if d = '"' then some ('"', r2)
        else if d = '\\' then some ('\\', r2)
        else if d = 'b' then some ('\x08', r2)
        else if d = 't' then some ('\x09', r2)
        else if d = 'n' then some ('\x0a', r2)
        else if d = 'f' then some ('\x0c', r2)
        else if d = 'r' then some ('\x0d', r2)
        else if d = 'u' then
          match r2 with
          | _ :: _ :: h1 :: h2 :: r3 =>
            some (Char.ofNat (16 * hexVal h1 + hexVal h2), r3)
          | _ => none
        else none
    else some (c, rest)

/-- `isCacheValid`: absent entries are invalid; otherwise the age must be
strictly below the TTL. -/
def isCacheValid (entry : Option CacheEntry) (now : Nat) : Bool :=
  match entry with
  | none => false
  | some e => now - e.timestamp < CONFIG.CACHE_TTL_MS

/-- `searchCache.get`, the `Map` embedded as an association list. -/
def cacheGet : List (String × CacheEntry) → String → Option CacheEntry
  | [], _ => none
  | (k', v') :: rest, k => if k' = k then some v' else cacheGet rest k

/-- `searchCache.set`: unconditional overwrite of an existing key, append
otherwise. -/
def cacheSet : List (String × CacheEntry) → String → CacheEntry →
    List (String × CacheEntry)
  | [], k, v => [(k, v)]
  | (k', v') :: rest, k, v =>
    if k' = k then (k, v) :: rest else (k', v') :: cacheSet rest k v

/-! ## Analytics Recorder (`logAnalytics`, `analyticsLog`, `getAnalytics`) -/

/-- Append one record, then drop the oldest entry if the log has grown
beyond 1000 entries (`analyticsLog.push` followed by the bounded
`shift`). -/
def pushBounded (log : List AnalyticsRecord) (e : AnalyticsRecord) :
    List AnalyticsRecord :=
  let l2 := log ++ [e]
  if 1000 < l2.length then l2.tail else l2

/-- `logAnalytics`.  The globals read by the source (`isDemoMode`, the
wall clock, `analyticsLog`) are explicit arguments; the new log is
returned. -/
def logAnalytics (params : SearchParams) (result : SearchResult)
    (duration : Nat) (fromCache : Bool) (isDemoMode : Bool) (ts : Nat)
    (log : List AnalyticsRecord) : List AnalyticsRecord :=
  if CONFIG.ANALYTICS_ENABLED then
    pushBounded log
      { timestamp := ts
        query := params.query
        filters := params.filters
        hitsCount := result.hits.length
        totalHits := result.total
        duration := duration
        fromCache := fromCache
        source := if isDemoMode then "demo" else "algolia" }
  else log

/-- The summary computed by `getAnalytics` (the two purely display-oriented
percentage/average strings of the source are not modelled). -/
structure AnalyticsSummary where
  totalSearches : Nat
  cacheHits : Nat
  demoSearches : Nat
  recentSearches : List AnalyticsRecord
deriving DecidableEq

/-- `getAnalytics`; `none` embeds the "No analytics data available"
message returned on an empty log. -/
def getAnalytics (log : List AnalyticsRecord) : Option AnalyticsSummary :=
  if log.length = 0 then none
  else
    some
      { totalSearches := log.length
        cacheHits := (log.filter (fun l => l.fromCache)).length
        demoSearches := (log.filter (fun l => decide (l.source = "demo"))).length
        recentSearches := log.drop (log.length - 10) }

/-- Decidable equality of fallible outcomes (used to evaluate the models
on concrete inputs). -/
instance {ε α : Type} [DecidableEq ε] [DecidableEq α] :
    DecidableEq (Except ε α) := fun a b =>
  match a, b with
  | Except.ok x, Except.ok y =>
    if h : x = y then isTrue (by simp [h]) else isFalse (by simp [h])
  | Except.error e, Except.error f =>
    if h : e = f then isTrue (by simp [h]) else isFalse (by simp [h])
  | Except.ok _, Except.error _ => isFalse (by simp)
  | Except.error _, Except.ok _ => isFalse (by simp)

/-! ## Remote Search Gateway (`performAlgoliaSearch`) -/

/-- The fields of a raw remote response that the gateway reads. -/
structure RemoteRaw where
  hits : List Product
  nbHits : Nat
  page : Nat
  processingTimeMS : Nat
deriving DecidableEq

/-- Mapping of a raw remote response into the result shape. -/
def remoteToResult (raw : RemoteRaw) : SearchResult :=
  { hits := raw.hits
    total := raw.nbHits
    page := raw.page
    processingTimeMs := raw.processingTimeMS
    source := "algolia"
    fallback := none
    error := none }

/-- The retry recursion of `performAlgoliaSearch`, with the remote index
an oracle from attempt number to outcome.  `fuel` is the structural bound
`MAX_RETRIES - attempt`; the guard is still the source's
`attempt < MAX_RETRIES`, so the `fuel = 0` arm under a true guard is
unreachable from `performAlgoliaSearch` itself.  Alongside the outcome we
collect the list of waits (`RETRY_DELAY_MS * attempt`) performed, in
order. -/
def performSearchGo (attempts : Nat → Except String RemoteRaw)
    (params : SearchParams) :
    Nat → Nat → Except String SearchResult × List Nat
  | attempt, fuel + 1 =>
    match attempts attempt with
    | Except.ok raw => (Except.ok (remoteToResult raw), [])
    | Except.error e =>
      if attempt < CONFIG.MAX_RETRIES then
        let r := performSearchGo attempts params (attempt + 1) fuel
        (r.1, CONFIG.RETRY_DELAY_MS * attempt :: r.2)
      else (Except.error e, [])
  | attempt, 0 =>
    match attempts attempt with
    | Except.ok raw => (Except.ok (remoteToResult raw), [])
    | Except.error e => (Except.error e, [])

/-- `performAlgoliaSearch(params, attempt)`. -/
def performAlgoliaSearch (attempts : Nat → Except String RemoteRaw)
    (params : SearchParams) (attempt : Nat) :
    Except String SearchResult × List Nat :=
  performSearchGo attempts params attempt (CONFIG.MAX_RETRIES - attempt)

/-! ## Search Orchestrator (`searchProducts`) -/

/-- The module-level mutable state of the client. -/
structure ClientState where
  searchCache : List (String × CacheEntry)
  analyticsLog : List AnalyticsRecord
  isDemoMode : Bool
deriving DecidableEq

/-- The non-cache-hit continuation of `searchProducts`: demo mode, or the
remote attempt with fallback on exhausted retries.  `t0` is the start
instant (`startTime`), `t1` the completion instant, so the logged duration
is `t1 - t0`. -/
def searchProductsMiss (st : ClientState) (params : SearchParams)
    (t0 t1 : Nat) (attempts : Nat → Except String RemoteRaw)
    (cacheKey : String) : Except String SearchResult × ClientState :=
  if st.isDemoMode then
    let result := searchDemoProducts params
    let duration := t1 - t0
    (Except.ok result,
      { st with
        analyticsLog :=
          logAnalytics params result duration false st.isDemoMode t1
            st.analyticsLog
        searchCache :=
          cacheSet st.searchCache cacheKey { data := result, timestamp := t1 } })
  else
    match performAlgoliaSearch attempts params 1 with
    | (Except.ok result, _) =>
      let duration := t1 - t0
      (Except.ok result,
        { st with
          analyticsLog :=
            logAnalytics params result duration false st.isDemoMode t1
              st.analyticsLog
          searchCache :=
            cacheSet st.searchCache cacheKey
              { data := result, timestamp := t1 } })
    | (Except.error e, _) =>
      if CONFIG.DEMO_FALLBACK then
        let result :=
          { searchDemoProducts params with
            fallback := some true
            error := some e }
        let duration := t1 - t0
        (Except.ok result,
          { st with
            analyticsLog :=
              logAnalytics params result duration false st.isDemoMode t1
                st.analyticsLog })
      else (Except.error e, st)

/-- `searchProducts`: cache lookup, then the miss continuation.  The
source's early `return` after the validity check is embedded by the
split into `searchProductsMiss`; the `none` arm under a valid-cache guard
cannot be reached because `isCacheValid none = false`. -/
def searchProducts (st : ClientState) (params : SearchParams) (t0 t1 : Nat)
    (attempts : Nat → Except String RemoteRaw) :
    Except String SearchResult × ClientState :=
  let cacheKey := generateCacheKey params
  let cached := cacheGet st.searchCache cacheKey
  if isCacheValid cached t0 then
    match cached with
    | some entry =>
      (Except.ok entry.data,
        { st with
          analyticsLog :=
            logAnalytics params entry.data 0 true st.isDemoMode t0
              st.analyticsLog })
    | none => searchProductsMiss st params t0 t1 attempts cacheKey
  else searchProductsMiss st params t0 t1 attempts cacheKey

/-! ## Helper lemmas: numbers and the sort -/

/-- `JsNum.lt` decides the numeric strict order of the denoted rationals. -/
theorem JsNum.lt_iff_val (a b : JsNum) : a.lt b = true ↔ a.val < b.val := by
  unfold JsNum.lt JsNum.val
  rw [div_lt_div_iff₀ (by positivity) (by positivity)]
  rw [decide_eq_true_iff]
  exact_mod_cast Iff.rfl


theorem mem_insertByPrice {p x : Product} {l : List Product} :
    p ∈ insertByPrice x l ↔ p = x ∨ p ∈ l := by
  induction l with
  | nil => simp [insertByPrice]
  | cons y r ih =>
    by_cases h : y.price_sale < x.price_sale
    · simp only [insertByPrice, if_pos h, List.mem_cons, ih]
      tauto
    · simp only [insertByPrice, if_neg h, List.mem_cons]

theorem mem_sortByPrice {p : Product} {l : List Product} :
    p ∈ sortByPrice l ↔ p ∈ l := by
  induction l with
  | nil => simp [sortByPrice]
  | cons x r ih => simp [sortByPrice, mem_insertByPrice, ih]

theorem length_insertByPrice (x : Product) (l : List Product) :
    (insertByPrice x l).length = l.length + 1 := by
  induction l with
  | nil => rfl
  | cons y r ih =>
    by_cases h : y.price_sale < x.price_sale <;>
      simp [insertByPrice, h, ih]

theorem length_sortByPrice (l : List Product) :
    (sortByPrice l).length = l.length := by
  induction l with
  | nil => rfl
  | cons x r ih => simp [sortByPrice, length_insertByPrice, ih]

/-! ## Helper lemmas: the filter stages -/

theorem mem_of_budgetStage {f : String} {l : List Product} {p : Product}
    (h : p ∈ budgetStage f l) : p ∈ l := by
  unfold budgetStage at h
  split at h
  · exact List.mem_of_mem_filter h
  · exact h

theorem mem_of_weightStage {f : String} {l : List Product} {p : Product}
    (h : p ∈ weightStage f l) : p ∈ l := by
  unfold weightStage at h
  split at h
  · exact List.mem_of_mem_filter h
  · exact h

theorem mem_of_batteryStage {f : String} {l : List Product} {p : Product}
    (h : p ∈ batteryStage f l) : p ∈ l := by
  unfold batteryStage at h
  split at h
  · exact List.mem_of_mem_filter h
  · exact h

theorem mem_of_stockStage {f : String} {l : List Product} {p : Product}
    (h : p ∈ stockStage f l) : p ∈ l := by
  unfold stockStage at h
  split at h
  · exact List.mem_of_mem_filter h
  · exact h

theorem mem_of_brandStage {f : String} {l : List Product} {p : Product}
    (h : p ∈ brandStage f l) : p ∈ l := by
  unfold brandStage at h
  split at h
  · exact List.mem_of_mem_filter h
  · exact h

theorem budgetStage_sound {f : String} {l : List Product} {p : Product}
    {b : Nat} (hb : budgetOf f = some b) (h : p ∈ budgetStage f l) :
    p.price_sale < b := by
  unfold budgetStage at h
  rw [hb] at h
  simpa using (List.mem_filter.mp h).2

theorem weightStage_sound {f : String} {l : List Product} {p : Product}
    {w : JsNum} (hw : weightOf f = some w) (h : p ∈ weightStage f l) :
    p.weight_kg.lt w = true := by
  unfold weightStage at h
  rw [hw] at h
  exact (List.mem_filter.mp h).2

theorem batteryStage_sound {f : String} {l : List Product} {p : Product}
    {b : JsNum} (hb : batteryOf f = some b) (h : p ∈ batteryStage f l) :
    b.lt p.battery_hours = true := by
  unfold batteryStage at h
  rw [hb] at h
  exact (List.mem_filter.mp h).2

theorem stockStage_sound {f : String} {l : List Product} {p : Product}
    (hs : hasInStockTrue f = true) (h : p ∈ stockStage f l) :
    p.in_stock = true := by
  unfold stockStage at h
  rw [hs] at h
  exact (List.mem_filter.mp (by simpa using h)).2

theorem brandStage_sound {f : String} {l : List Product} {p : Product}
    {x : String} (hx : brandOf f = some x) (h : p ∈ brandStage f l) :
    upperStr p.brand = upperStr x := by
  unfold brandStage at h
  rw [hx] at h
  have h2 : p ∈ l ∧ upperStr p.brand = upperStr x := by simpa using h
  exact h2.2

theorem mem_of_queryFilter {q : String} {l : List Product} {p : Product}
    (h : p ∈ queryFilter q l) : p ∈ l := by
  simp only [queryFilter] at h
  exact List.mem_of_mem_filter h

/-- Membership in the demo hits implies membership in the pre-sort,
pre-truncation filtered list. -/
theorem mem_hits_demoFiltered {params : SearchParams} {p : Product}
    (h : p ∈ (searchDemoProducts params).hits) : p ∈ demoFiltered params := by
  simp only [searchDemoProducts] at h
  exact mem_sortByPrice.mp (List.take_subset _ _ h)

/-- When the request's `filters` string is non-empty, every product of the
filtered list survived all five filter blocks on that string. -/
theorem mem_demoFiltered_applyFilters {params : SearchParams} {p : Product}
    {f : String} (hf : params.filters = some f) (hne : f ≠ "")
    (h : p ∈ demoFiltered params) : p ∈ applyFilters f DEMO_PRODUCTS := by
  simp only [demoFiltered, hf, Option.getD] at h
  rw [if_pos hne] at h
  split at h
  · exact mem_of_queryFilter h
  · exact h

/-! ## Helper lemmas: injectivity of the cache-key serialization -/

theorem hexVal_hexDig {n : Nat} (h : n < 16) : hexVal (hexDig n) = n := by
  interval_cases n <;> decide

theorem dec1_escChar (c : Char) (l : List Char) :
    dec1 (escChar c ++ l) = some (c, l) := by
  unfold escChar
  split_ifs with h1 h2 h3 h4 h5 h6 h7 h8
  · subst h1; rfl
  · subst h2; rfl
  · subst h3; rfl
  · subst h4; rfl
  · subst h5; rfl
  · subst h6; rfl
  · subst h7; rfl
  · have d1 : c.toNat / 16 < 16 := by omega
    have d2 : c.toNat % 16 < 16 := Nat.mod_lt _ (by omega)
    have hv : 16 * (c.toNat / 16) + c.toNat % 16 = c.toNat := by omega
    simp [dec1, hexVal_hexDig d1, hexVal_hexDig d2, hv, Char.ofNat_toNat]
  · show dec1 (c :: l) = some (c, l)
    simp [dec1, h2]

theorem escChar_ne_nil (c : Char) : escChar c ≠ [] := by
  unfold escChar
  split_ifs <;> simp

theorem escList_inj {l1 l2 : List Char} (h : escList l1 = escList l2) :
    l1 = l2 := by
  induction l1 generalizing l2 with
  | nil =>
    cases l2 with
    | nil => rfl
    | cons d s =>
      simp only [escList] at h
      exact absurd (List.append_eq_nil.mp h.symm).1 (escChar_ne_nil d)
  | cons c r ih =>
    cases l2 with
    | nil =>
      simp only [escList] at h
      exact absurd (List.append_eq_nil.mp h).1 (escChar_ne_nil c)
    | cons d s =>
      simp only [escList] at h
      have h2 := congrArg dec1 h
      rw [dec1_escChar, dec1_escChar] at h2
      have h3 := Option.some.inj h2
      have hc : c = d := congrArg Prod.fst h3
      have hr : escList r = escList s := congrArg Prod.snd h3
      rw [hc, ih hr]

theorem jsonQuote_inj {s1 s2 : String} (h : jsonQuote s1 = jsonQuote s2) :
    s1 = s2 := by
  unfold jsonQuote at h
  injection h with h0 h1
  have h2 : escList s1.data = escList s2.data := List.append_cancel_right h1
  have h3 : s1.data = s2.data := escList_inj h2
  cases s1
  cases s2
  exact congrArg String.mk h3

/-- Distinct `filters` strings give distinct cache keys when `query` and
`hitsPerPage` agree. -/
theorem generateCacheKey_filters_inj {p1 p2 : SearchParams} {f1 f2 : String}
    (hq : p1.query = p2.query) (hh : p1.hitsPerPage = p2.hitsPerPage)
    (h1 : p1.filters = some f1) (h2 : p2.filters = some f2)
    (hk : generateCacheKey p1 = generateCacheKey p2) : f1 = f2 := by
  have hk2 : keyChars p1 = keyChars p2 := congrArg String.data hk
  unfold keyChars at hk2
  rw [hq, hh, h1, h2] at hk2
  simp only [jsOrEmpty, Option.getD, List.append_assoc] at hk2
  have hk3 := List.append_cancel_left hk2
  have hk4 := List.append_cancel_left hk3
  have hk5 := List.append_cancel_left hk4
  exact jsonQuote_inj (List.append_cancel_right hk5)

/-! ## Helper lemmas: extractors on the empty filter string -/

theorem budgetOf_empty : budgetOf "" = none := by decide

theorem weightOf_empty : weightOf "" = none := by decide

theorem batteryOf_empty : batteryOf "" = none := by decide

theorem brandOf_empty : brandOf "" = none := by decide

theorem hasInStockTrue_empty : hasInStockTrue "" = false := by decide

/-- A filter string in which no supported atom matches constrains
nothing. -/
theorem applyFilters_id {s : String} (l : List Product)
    (hb : budgetOf s = none) (hw : weightOf s = none)
    (hba : batteryOf s = none) (hst : hasInStockTrue s = false)
    (hbr : brandOf s = none) : applyFilters s l = l := by
  unfold applyFilters brandStage stockStage batteryStage weightStage
    budgetStage
  rw [hb, hw, hba, hst, hbr]
  simp

/-! ## Helper lemmas: the retry gateway -/

theorem performAlgoliaSearch_step (attempts : Nat → Except String RemoteRaw)
    (params : SearchParams) (a : Nat) (e : String)
    (ha : a < CONFIG.MAX_RETRIES) (he : attempts a = Except.error e) :
    performAlgoliaSearch attempts params a =
      ((performAlgoliaSearch attempts params (a + 1)).1,
        CONFIG.RETRY_DELAY_MS * a ::
          (performAlgoliaSearch attempts params (a + 1)).2) := by
  unfold performAlgoliaSearch
  have h3 : CONFIG.MAX_RETRIES = 3 := rfl
  have hf : CONFIG.MAX_RETRIES - a = (CONFIG.MAX_RETRIES - (a + 1)) + 1 := by
    omega
  rw [hf]
  simp only [performSearchGo, he, if_pos ha]

theorem performAlgoliaSearch_ok (attempts : Nat → Except String RemoteRaw)
    (params : SearchParams) (a : Nat) (raw : RemoteRaw)
    (hr : attempts a = Except.ok raw) :
    performAlgoliaSearch attempts params a =
      (Except.ok (remoteToResult raw), []) := by
  unfold performAlgoliaSearch
  cases CONFIG.MAX_RETRIES - a with
  | zero => simp only [performSearchGo, hr]
  | succ n => simp only [performSearchGo, hr]

theorem performAlgoliaSearch_exhausted
    (attempts : Nat → Except String RemoteRaw) (params : SearchParams)
    (a : Nat) (e : String) (ha : ¬a < CONFIG.MAX_RETRIES)
    (he : attempts a = Except.error e) :
    performAlgoliaSearch attempts params a = (Except.error e, []) := by
  unfold performAlgoliaSearch
  have hf : CONFIG.MAX_RETRIES - a = 0 := by
    have h3 : CONFIG.MAX_RETRIES = 3 := rfl
    omega
  rw [hf]
  simp only [performSearchGo, he]

/-! ## Helper lemmas: the orchestrator paths -/

/-- The non-demo, remote-failure path: the demo search answers, tagged
`fallback=true` with the propagated error message, analytics is recorded,
and only the analytics log changes in the state. -/
theorem searchProducts_fallback_eq (st : ClientState) (params : SearchParams)
    (t0 t1 : Nat) (attempts : Nat → Except String RemoteRaw) (e : String)
    (hmiss : isCacheValid (cacheGet st.searchCache (generateCacheKey params))
      t0 = false)
    (hdemo : st.isDemoMode = false)
    (hfail : (performAlgoliaSearch attempts params 1).1 = Except.error e) :
    searchProducts st params t0 t1 attempts =
      (Except.ok
        { searchDemoProducts params with
          fallback := some true
          error := some e },
        { st with
          analyticsLog :=
            logAnalytics params
              { searchDemoProducts params with
                fallback := some true
                error := some e }
              (t1 - t0) false st.isDemoMode t1 st.analyticsLog }) := by
  rcases hP : performAlgoliaSearch attempts params 1 with ⟨r1, r2⟩
  have hr1 : r1 = Except.error e := by rw [hP] at hfail; exact hfail
  subst hr1
  simp only [searchProducts, hmiss, Bool.false_eq_true, if_false,
    searchProductsMiss, hdemo, hP]
  rfl

/-- With analytics enabled in the fixed configuration, `logAnalytics` is
exactly a bounded push of the constructed record. -/
theorem logAnalytics_eq_pushBounded (params : SearchParams)
    (result : SearchResult) (duration : Nat) (fromCache : Bool)
    (isDemoMode : Bool) (ts : Nat) (log : List AnalyticsRecord) :
    logAnalytics params result duration fromCache isDemoMode ts log =
      pushBounded log
        { timestamp := ts
          query := params.query
          filters := params.filters
          hitsCount := result.hits.length
          totalHits := result.total
          duration := duration
          fromCache := fromCache
          source := if isDemoMode then "demo" else "algolia" } := rfl

/-- Every non-cache-hit path appends exactly one analytics record. -/
theorem searchProductsMiss_logs_once (st : ClientState)
    (params : SearchParams) (t0 t1 : Nat)
    (attempts : Nat → Except String RemoteRaw) (k : String) :
    ∃ r, (searchProductsMiss st params t0 t1 attempts k).2.analyticsLog =
      pushBounded st.analyticsLog r := by
  unfold searchProductsMiss
  by_cases hd : st.isDemoMode
  · refine ⟨{ timestamp := t1
              query := params.query
              filters := params.filters
              hitsCount := (searchDemoProducts params).hits.length
              totalHits := (searchDemoProducts params).total
              duration := t1 - t0
              fromCache := false
              source := if st.isDemoMode then "demo" else "algolia" }, ?_⟩
    simp only [hd, if_true, logAnalytics_eq_pushBounded]
  · have hd' : st.isDemoMode = false := by simpa using hd
    rcases hP : performAlgoliaSearch attempts params 1 with ⟨r1, r2⟩
    cases r1 with
    | ok res =>
      refine ⟨{ timestamp := t1
                query := params.query
                filters := params.filters
                hitsCount := res.hits.length
                totalHits := res.total
                duration := t1 - t0
                fromCache := false
                source := if st.isDemoMode then "demo" else "algolia" }, ?_⟩
      simp only [hd', Bool.false_eq_true, if_false, hP,
        logAnalytics_eq_pushBounded]
    | error e =>
      refine ⟨{ timestamp := t1
                query := params.query
                filters := params.filters
                hitsCount := (searchDemoProducts params).hits.length
                totalHits := (searchDemoProducts params).total
                duration := t1 - t0
                fromCache := false
                source := if st.isDemoMode then "demo" else "algolia" }, ?_⟩
      simp only [hd', Bool.false_eq_true, if_false, hP,
        logAnalytics_eq_pushBounded]
      rfl

/-! ## The claims -/

set_option maxRecDepth 10000

/-- Claim C4: every remote attempt failing with attempt number strictly
below MAX_RETRIES (3) waits `RETRY_DELAY_MS * attempt` (1s after the
first failure, 2s after the second) and retries with `attempt + 1`; after
the third failure the error is propagated to the caller unchanged; hence
at most 3 attempts and at most 3 seconds of accumulated delay per call. -/
theorem performAlgoliaSearch_retry_policy
    (attempts : Nat → Except String RemoteRaw) (params : SearchParams) :
    (∀ a e, a < CONFIG.MAX_RETRIES → attempts a = Except.error e →
      performAlgoliaSearch attempts params a =
        ((performAlgoliaSearch attempts params (a + 1)).1,
          CONFIG.RETRY_DELAY_MS * a ::
            (performAlgoliaSearch attempts params (a + 1)).2)) ∧
    (∀ e1 e2 e3, attempts 1 = Except.error e1 →
      attempts 2 = Except.error e2 → attempts 3 = Except.error e3 →
      performAlgoliaSearch attempts params 1 =
        (Except.error e3,
          [CONFIG.RETRY_DELAY_MS * 1, CONFIG.RETRY_DELAY_MS * 2])) ∧
    (performAlgoliaSearch attempts params 1).2.length + 1 ≤ 3 ∧
    (performAlgoliaSearch attempts params 1).2.sum ≤ 3000 := by
  refine ⟨fun a e ha he => performAlgoliaSearch_step attempts params a e ha he,
    ?_, ?_, ?_⟩
  · intro e1 e2 e3 h1 h2 h3
    rw [performAlgoliaSearch_step attempts params 1 e1 (by decide) h1,
      performAlgoliaSearch_step attempts params 2 e2 (by decide) h2,
      performAlgoliaSearch_exhausted attempts params 3 e3 (by decide) h3]
  all_goals
    rcases h1 : attempts 1 with e1 | r1
    case error =>
      rcases h2 : attempts 2 with e2 | r2
      case error =>
        rcases h3 : attempts 3 with e3 | r3
        case error =>
          rw [performAlgoliaSearch_step attempts params 1 e1 (by decide) h1,
            performAlgoliaSearch_step attempts params 2 e2 (by decide) h2,
            performAlgoliaSearch_exhausted attempts params 3 e3 (by decide) h3]
          simp [CONFIG]
        case ok =>
          rw [performAlgoliaSearch_step attempts params 1 e1 (by decide) h1,
            performAlgoliaSearch_step attempts params 2 e2 (by decide) h2,
            performAlgoliaSearch_ok attempts params 3 r3 h3]
          simp [CONFIG]
      case ok =>
        rw [performAlgoliaSearch_step attempts params 1 e1 (by decide) h1,
          performAlgoliaSearch_ok attempts params 2 r2 h2]
        simp [CONFIG]
    case ok =>
      rw [performAlgoliaSearch_ok attempts params 1 r1 h1]
      simp

/-- Witness for the retry-policy claim at a concrete always-failing
remote: the error of the third attempt is propagated after 1s + 2s of
backoff. -/
theorem performAlgoliaSearch_retry_policy_witness :
    performAlgoliaSearch (fun _ => Except.error "down")
        ⟨some "laptop", none, some 5, none⟩ 1 =
      (Except.error "down",
        [CONFIG.RETRY_DELAY_MS * 1, CONFIG.RETRY_DELAY_MS * 2]) :=
  (performAlgoliaSearch_retry_policy (fun _ => Except.error "down")
      ⟨some "laptop", none, some 5, none⟩).2.1 "down" "down" "down"
    rfl rfl rfl

/-- Claim C5: with a positive `hitsPerPage = n`, the fallback search
returns at most `n` hits, its `total` is the full matching count before
truncation, and `total ≥ hits.length`. -/
theorem searchDemoProducts_truncation (params : SearchParams) (n : Nat)
    (hn : params.hitsPerPage = some n) (_hpos : 0 < n) :
    (searchDemoProducts params).hits.length ≤ n ∧
    (searchDemoProducts params).total = (demoFiltered params).length ∧
    (searchDemoProducts params).hits.length ≤
      (searchDemoProducts params).total := by
  simp only [searchDemoProducts, hn, Option.getD_some]
  refine ⟨?_, ?_, ?_⟩
  · rw [List.length_take]
    exact min_le_left _ _
  · exact length_sortByPrice _
  · rw [List.length_take, length_sortByPrice]
    exact min_le_right _ _

/-- Witness for the truncation claim at `hitsPerPage = 2`. -/
theorem searchDemoProducts_truncation_witness :
    (searchDemoProducts ⟨none, none, some 2, none⟩).hits.length ≤ 2 ∧
    (searchDemoProducts ⟨none, none, some 2, none⟩).total =
      (demoFiltered ⟨none, none, some 2, none⟩).length ∧
    (searchDemoProducts ⟨none, none, some 2, none⟩).hits.length ≤
      (searchDemoProducts ⟨none, none, some 2, none⟩).total :=
  searchDemoProducts_truncation ⟨none, none, some 2, none⟩ 2 rfl (by decide)

/-- Claim C6: the cache key ignores `attributesToRetrieve`, and two
requests agreeing on `query` and `hitsPerPage` but carrying distinct
`filters` strings get distinct keys. -/
theorem generateCacheKey_independence :
    (∀ (p : SearchParams) (a a' : Option (List String)),
      generateCacheKey { p with attributesToRetrieve := a } =
        generateCacheKey { p with attributesToRetrieve := a' }) ∧
    (∀ (p1 p2 : SearchParams) (f1 f2 : String),
      p1.query = p2.query → p1.hitsPerPage = p2.hitsPerPage →
      p1.filters = some f1 → p2.filters = some f2 → f1 ≠ f2 →
      generateCacheKey p1 ≠ generateCacheKey p2) := by
  constructor
  · intro p a a'
    rfl
  · intro p1 p2 f1 f2 hq hh h1 h2 hne hk
    exact hne (generateCacheKey_filters_inj hq hh h1 h2 hk)

/-- Witness for the cache-key claim on concrete requests. -/
theorem generateCacheKey_independence_witness :
    generateCacheKey ⟨some "laptop", some "f", some 5, some ["name"]⟩ =
      generateCacheKey ⟨some "laptop", some "f", some 5, none⟩ ∧
    generateCacheKey ⟨some "laptop", some "a", some 5, none⟩ ≠
      generateCacheKey ⟨some "laptop", some "b", some 5, none⟩ :=
  ⟨generateCacheKey_independence.1 ⟨some "laptop", some "f", some 5, none⟩
      (some ["name"]) none,
    generateCacheKey_independence.2 ⟨some "laptop", some "a", some 5, none⟩
      ⟨some "laptop", some "b", some 5, none⟩ "a" "b" rfl rfl rfl rfl
      (by decide)⟩

/-- Claim C8: the fallback search is total and permissive: a filters
string in which no supported atom matches behaves exactly like an absent
filters argument, the empty string behaves like an absent one, and with
empty/absent filters the full collection passes through the filter stage
(only the free-text stage may still apply). -/
theorem searchDemoProducts_permissive (params : SearchParams) (s : String)
    (hb : budgetOf s = none) (hw : weightOf s = none)
    (hba : batteryOf s = none) (hst : hasInStockTrue s = false)
    (hbr : brandOf s = none) :
    searchDemoProducts { params with filters := some s } =
      searchDemoProducts { params with filters := none } ∧
    (∀ p : SearchParams,
      searchDemoProducts { p with filters := some "" } =
        searchDemoProducts { p with filters := none }) ∧
    (∀ p : SearchParams, p.filters = none ∨ p.filters = some "" →
      demoFiltered p =
        if p.query.getD "" ≠ "" ∧ p.query.getD "" ≠ "laptop" then
          queryFilter (p.query.getD "") DEMO_PRODUCTS
        else DEMO_PRODUCTS) := by
  refine ⟨?_, ?_, ?_⟩
  · have hd : demoFiltered { params with filters := some s } =
        demoFiltered { params with filters := none } := by
      by_cases hs : s = ""
      · subst hs
        simp [demoFiltered]
      · simp [demoFiltered, hs, applyFilters_id _ hb hw hba hst hbr]
    simp only [searchDemoProducts, hd]
  · intro p
    simp [searchDemoProducts, demoFiltered]
  · intro p hp
    rcases hp with hp | hp <;> simp [demoFiltered, hp]

/-- Witness for the permissiveness claim on a malformed filter string. -/
theorem searchDemoProducts_permissive_witness :
    searchDemoProducts ⟨some "tablet", some "foo:bar baz", some 3, none⟩ =
      searchDemoProducts ⟨some "tablet", none, some 3, none⟩ :=
  (searchDemoProducts_permissive ⟨some "tablet", none, some 3, none⟩
      "foo:bar baz" (by decide) (by decide) (by decide) (by decide)
      (by decide)).1

/-- Claim C9: `hitsPerPage = 0` is defaulted to 5 inside the cache key
(`0 || 5`) while the fallback search honors it (empty hits); therefore
the two differing requests share one cache entry and, in demo mode, the
first to run fixes the cached answer the second one receives within the
TTL. -/
theorem hitsPerPage_zero_cache_collision :
    (∀ params : SearchParams,
      generateCacheKey { params with hitsPerPage := some 0 } =
        generateCacheKey { params with hitsPerPage := some 5 }) ∧
    (∀ params : SearchParams,
      (searchDemoProducts { params with hitsPerPage := some 0 }).hits =
        []) ∧
    (searchDemoProducts ⟨some "laptop", none, some 5, none⟩).hits ≠ [] ∧
    (let st : ClientState := ⟨[], [], true⟩
     let out1 := searchProducts st ⟨some "laptop", none, some 0, none⟩ 0 10
       (fun _ => Except.error "unreachable")
     let out2 := searchProducts out1.2 ⟨some "laptop", none, some 5, none⟩
       20 30 (fun _ => Except.error "unreachable")
     out2.1 = out1.1 ∧ out1.1.toOption.map (fun r => r.hits) = some []) := by
  refine ⟨fun params => rfl, fun params => ?_, by decide, by decide⟩
  simp [searchDemoProducts]

/-- Claim C2, counterexample: a filters string can contain the atom
`price_sale < 100` while the interpreter honors only the first
`price_sale` occurrence (here `price_sale < 3000000`), so a returned hit
violates the contained atom. -/
theorem searchDemo_contained_atom_counterexample :
    containsSub "price_sale < 100".data
        "price_sale < 3000000 AND price_sale < 100".data = true ∧
    (searchDemoProducts
        ⟨some "laptop", some "price_sale < 3000000 AND price_sale < 100",
          some 5, none⟩).hits.all
        (fun p => decide (p.price_sale < 100)) = false := by
  decide

/-- Claim C2 (amended): for requests served from the fallback dataset,
every hit satisfies the atomic predicates the interpreter actually
extracts: the bound of the FIRST matching occurrence of each of the
budget/weight/battery/brand patterns (leftmost match wins when the text
contains several), and the `in_stock:true` conjunct whenever the text
contains it. -/
theorem searchDemoProducts_first_atom_sound (params : SearchParams)
    (f : String) (hf : params.filters = some f) (p : Product)
    (hp : p ∈ (searchDemoProducts params).hits) :
    (∀ b, budgetOf f = some b → p.price_sale < b) ∧
    (∀ w, weightOf f = some w → p.weight_kg.lt w = true) ∧
    (∀ h, batteryOf f = some h → h.lt p.battery_hours = true) ∧
    (hasInStockTrue f = true → p.in_stock = true) ∧
    (∀ x, brandOf f = some x → upperStr p.brand = upperStr x) := by
  have hm := mem_hits_demoFiltered hp
  refine ⟨?_, ?_, ?_, ?_, ?_⟩
  · intro b hb
    have hne : f ≠ "" := by
      rintro rfl
      rw [budgetOf_empty] at hb
      cases hb
    have hmf := mem_demoFiltered_applyFilters hf hne hm
    unfold applyFilters at hmf
    exact budgetStage_sound hb
      (mem_of_weightStage (mem_of_batteryStage (mem_of_stockStage
        (mem_of_brandStage hmf))))
  · intro w hw
    have hne : f ≠ "" := by
      rintro rfl
      rw [weightOf_empty] at hw
      cases hw
    have hmf := mem_demoFiltered_applyFilters hf hne hm
    unfold applyFilters at hmf
    exact weightStage_sound hw
      (mem_of_batteryStage (mem_of_stockStage (mem_of_brandStage hmf)))
  · intro hB hb
    have hne : f ≠ "" := by
      rintro rfl
      rw [batteryOf_empty] at hb
      cases hb
    have hmf := mem_demoFiltered_applyFilters hf hne hm
    unfold applyFilters at hmf
    exact batteryStage_sound hb
      (mem_of_stockStage (mem_of_brandStage hmf))
  · intro hst
    have hne : f ≠ "" := by
      rintro rfl
      rw [hasInStockTrue_empty] at hst
      cases hst
    have hmf := mem_demoFiltered_applyFilters hf hne hm
    unfold applyFilters at hmf
    exact stockStage_sound hst (mem_of_brandStage hmf)
  · intro x hx
    have hne : f ≠ "" := by
      rintro rfl
      rw [brandOf_empty] at hx
      cases hx
    have hmf := mem_demoFiltered_applyFilters hf hne hm
    unfold applyFilters at hmf
    exact brandStage_sound hx hmf

/-- Witness for the amended filter-soundness claim: the Lenovo demo
product is returned for `price_sale < 2000000 AND in_stock:true` and
satisfies both extracted predicates. -/
theorem searchDemoProducts_first_atom_sound_witness :
    (DEMO_PRODUCTS.get ⟨2, by decide⟩).price_sale < 2000000 ∧
    (DEMO_PRODUCTS.get ⟨2, by decide⟩).in_stock = true := by
  have h := searchDemoProducts_first_atom_sound
    ⟨some "laptop", some "price_sale < 2000000 AND in_stock:true", some 5,
      none⟩
    "price_sale < 2000000 AND in_stock:true" rfl
    (DEMO_PRODUCTS.get ⟨2, by decide⟩) (by decide)
  exact ⟨h.1 2000000 (by decide), h.2.2.2.1 (by decide)⟩

/-- Claim C3: on a fresh cache entry (age strictly below the 5-minute
TTL), `searchProducts` returns exactly the stored result, appends one
analytics record with `fromCache = true` and duration 0, and neither the
remote gateway nor the fallback influences the outcome (the result is
identical for any two remote oracles). -/
theorem searchProducts_cache_hit (st : ClientState) (params : SearchParams)
    (t0 t1 : Nat) (attempts attempts2 : Nat → Except String RemoteRaw)
    (entry : CacheEntry)
    (hget : cacheGet st.searchCache (generateCacheKey params) = some entry)
    (hfresh : t0 - entry.timestamp < CONFIG.CACHE_TTL_MS) :
    searchProducts st params t0 t1 attempts =
      (Except.ok entry.data,
        { st with
          analyticsLog :=
            pushBounded st.analyticsLog
              { timestamp := t0
                query := params.query
                filters := params.filters
                hitsCount := entry.data.hits.length
                totalHits := entry.data.total
                duration := 0
                fromCache := true
                source := if st.isDemoMode then "demo" else "algolia" } }) ∧
    searchProducts st params t0 t1 attempts =
      searchProducts st params t0 t1 attempts2 := by
  have hv : isCacheValid (some entry) t0 = true := by
    simpa [isCacheValid] using hfresh
  have key : ∀ att : Nat → Except String RemoteRaw,
      searchProducts st params t0 t1 att =
        (Except.ok entry.data,
          { st with
            analyticsLog :=
              pushBounded st.analyticsLog
                { timestamp := t0
                  query := params.query
                  filters := params.filters
                  hitsCount := entry.data.hits.length
                  totalHits := entry.data.total
                  duration := 0
                  fromCache := true
                  source := if st.isDemoMode then "demo" else "algolia" } }) := by
    intro att
    simp only [searchProducts, hget, hv, if_true, logAnalytics_eq_pushBounded]
  exact ⟨key attempts, (key attempts).trans (key attempts2).symm⟩

/-- Witness for the cache-hit claim: with a pre-populated fresh entry the
outcome is oracle-independent. -/
theorem searchProducts_cache_hit_witness :
    searchProducts
        ⟨[(generateCacheKey ⟨none, none, none, none⟩,
            ⟨⟨[], 42, 0, 0, "algolia", none, none⟩, 0⟩)], [], false⟩
        ⟨none, none, none, none⟩ 0 1 (fun _ => Except.error "a") =
      searchProducts
        ⟨[(generateCacheKey ⟨none, none, none, none⟩,
            ⟨⟨[], 42, 0, 0, "algolia", none, none⟩, 0⟩)], [], false⟩
        ⟨none, none, none, none⟩ 0 1 (fun _ => Except.ok ⟨[], 7, 0, 0⟩) :=
  (searchProducts_cache_hit
      ⟨[(generateCacheKey ⟨none, none, none, none⟩,
          ⟨⟨[], 42, 0, 0, "algolia", none, none⟩, 0⟩)], [], false⟩
      ⟨none, none, none, none⟩ 0 1 (fun _ => Except.error "a")
      (fun _ => Except.ok ⟨[], 7, 0, 0⟩)
      ⟨⟨[], 42, 0, 0, "algolia", none, none⟩, 0⟩ (by decide) (by decide)).2

/-- Claim C1, counterexample: after the remote fails all retries, the
fallback result (with `fallback = true` and the error message) is
returned and analytics recorded, but nothing is written into the query
cache — the cache stays empty, so the claimed write-through does not
happen. -/
theorem searchProducts_fallback_cache_counterexample :
    (let out := searchProducts ⟨[], [], false⟩
        ⟨some "laptop", some "price_sale < 3000000", some 5, none⟩ 0 5
        (fun _ => Except.error "boom")
     out.2.searchCache = [] ∧
       out.2.analyticsLog.length = 1 ∧
       out.1.toOption.map (fun r => (r.fallback, r.error, r.source)) =
         some (some true, some "boom", "demo")) := by
  decide

/-- Claim C1 (amended): when the remote fails after all retries (fallback
being enabled in the fixed configuration), `searchProducts` returns the
fallback result with `fallback = true` and `error` set to the failure
message and records analytics, but does NOT write the result into the
query cache: the cache is left unchanged, unlike the demo and
remote-success paths. -/
theorem searchProducts_fallback_no_cache_write (st : ClientState)
    (params : SearchParams) (t0 t1 : Nat)
    (attempts : Nat → Except String RemoteRaw) (e : String)
    (hmiss : isCacheValid (cacheGet st.searchCache (generateCacheKey params))
      t0 = false)
    (hdemo : st.isDemoMode = false)
    (hfail : (performAlgoliaSearch attempts params 1).1 = Except.error e) :
    searchProducts st params t0 t1 attempts =
      (Except.ok
        { searchDemoProducts params with
          fallback := some true
          error := some e },
        { st with
          analyticsLog :=
            logAnalytics params
              { searchDemoProducts params with
                fallback := some true
                error := some e }
              (t1 - t0) false st.isDemoMode t1 st.analyticsLog }) ∧
    (searchProducts st params t0 t1 attempts).2.searchCache =
      st.searchCache := by
  have h := searchProducts_fallback_eq st params t0 t1 attempts e hmiss
    hdemo hfail
  exact ⟨h, by rw [h]⟩

/-- Witness for the amended fallback claim at a concrete outage. -/
theorem searchProducts_fallback_no_cache_write_witness :
    (searchProducts ⟨[], [], false⟩ ⟨none, none, none, none⟩ 0 9
        (fun _ => Except.error "etimedout")).2.searchCache = [] :=
  (searchProducts_fallback_no_cache_write ⟨[], [], false⟩
      ⟨none, none, none, none⟩ 0 9 (fun _ => Except.error "etimedout")
      "etimedout" (by decide) rfl (by decide)).2

/-- Claim C7: every invocation of `searchProducts` — cache hit, demo
search, remote success, or fallback after remote failure — appends
exactly one record to the analytics log (with the bounded log's oldest
entry evicted past capacity). -/
theorem searchProducts_logs_exactly_once (st : ClientState)
    (params : SearchParams) (t0 t1 : Nat)
    (attempts : Nat → Except String RemoteRaw) :
    ∃ r, (searchProducts st params t0 t1 attempts).2.analyticsLog =
      pushBounded st.analyticsLog r := by
  by_cases hv :
    isCacheValid (cacheGet st.searchCache (generateCacheKey params)) t0 =
      true
  · rcases hC : cacheGet st.searchCache (generateCacheKey params) with _ |
      entry
    · rw [hC] at hv
      simp [isCacheValid] at hv
    · rw [hC] at hv
      refine ⟨{ timestamp := t0
                query := params.query
                filters := params.filters
                hitsCount := entry.data.hits.length
                totalHits := entry.data.total
                duration := 0
                fromCache := true
                source := if st.isDemoMode then "demo" else "algolia" }, ?_⟩
      simp only [searchProducts, hC, hv, if_true,
        logAnalytics_eq_pushBounded]
  · have hv' :
        isCacheValid (cacheGet st.searchCache (generateCacheKey params))
          t0 = false := by
      simpa using hv
    have hm : searchProducts st params t0 t1 attempts =
        searchProductsMiss st params t0 t1 attempts
          (generateCacheKey params) := by
      simp only [searchProducts, hv', Bool.false_eq_true, if_false]
    rw [hm]
    exact searchProductsMiss_logs_once st params t0 t1 attempts _

/-- Claim C10: the analytics `source` field is computed from the
demo-mode flag at logging time, not from the returned result: on the
fallback-after-remote-failure path the appended record carries
`source = "algolia"` even though the returned result reports
`source = "demo"` (and `fallback = true`), and such a search does not
increase `getAnalytics`'s `demoSearches` counter. -/
theorem fallback_analytics_source_algolia (st : ClientState)
    (params : SearchParams) (t0 t1 : Nat)
    (attempts : Nat → Except String RemoteRaw) (e : String)
    (hmiss : isCacheValid (cacheGet st.searchCache (generateCacheKey params))
      t0 = false)
    (hdemo : st.isDemoMode = false)
    (hfail : (performAlgoliaSearch attempts params 1).1 = Except.error e)
    (hlen : st.analyticsLog.length < 1000) :
    (searchProducts st params t0 t1 attempts).2.analyticsLog =
      st.analyticsLog ++
        [{ timestamp := t1
           query := params.query
           filters := params.filters
           hitsCount := (searchDemoProducts params).hits.length
           totalHits := (searchDemoProducts params).total
           duration := t1 - t0
           fromCache := false
           source := "algolia" }] ∧
    (∀ res, (searchProducts st params t0 t1 attempts).1 = Except.ok res →
      res.source = "demo" ∧ res.fallback = some true) ∧
    (getAnalytics
        (searchProducts st params t0 t1 attempts).2.analyticsLog).map
        (fun s => s.demoSearches) =
      some
        ((st.analyticsLog.filter
          (fun l => decide (l.source = "demo"))).length) := by
  have h := searchProducts_fallback_eq st params t0 t1 attempts e hmiss
    hdemo hfail
  have hlog : (searchProducts st params t0 t1 attempts).2.analyticsLog =
      st.analyticsLog ++
        [{ timestamp := t1
           query := params.query
           filters := params.filters
           hitsCount := (searchDemoProducts params).hits.length
           totalHits := (searchDemoProducts params).total
           duration := t1 - t0
           fromCache := false
           source := "algolia" }] := by
    rw [h]
    simp only [logAnalytics_eq_pushBounded, pushBounded, hdemo]
    rw [if_neg (by simp; omega)]
    simp
  refine ⟨hlog, ?_, ?_⟩
  · intro res hres
    rw [h] at hres
    have hres2 := Except.ok.inj hres
    rw [← hres2]
    constructor
    · simp [searchDemoProducts]
    · rfl
  · rw [hlog]
    simp [getAnalytics, List.filter_append]

/-- Witness for the analytics-source claim: after one fallback-served
search from a clean state, `demoSearches` is still 0. -/
theorem fallback_analytics_source_algolia_witness :
    (getAnalytics
        (searchProducts ⟨[], [], false⟩ ⟨none, none, none, none⟩ 0 7
          (fun _ => Except.error "down")).2.analyticsLog).map
        (fun s => s.demoSearches) = some 0 := by
  have h := fallback_analytics_source_algolia ⟨[], [], false⟩
    ⟨none, none, none, none⟩ 0 7 (fun _ => Except.error "down") "down"
    (by decide) rfl (by decide) (by decide)
  simpa using h.2.2

end Alkosto
